import Mathlib

/-!
Shallow embedding of the `budget-importer` repository (Python) in Lean 4.

Source files embedded:
  * `src/budget/models/paperless.py`   — `Document`
  * `src/budget/models/simplefin.py`   — `SimpleFinTransaction`, `SimpleFinAccount`
  * `src/budget/models/google.py`      — `Category`, sheet rows
  * `src/budget/clients/simplefin.py`  — `attach_receipts`, `categorize_transactions`
  * `src/budget/clients/google.py`     — `convert_to_row`, the dedup filter of
    `insert_records_to_google_sheet`
  * `src/budget/main.py`               — `Args.__post_init__` validation

Modelling conventions:
  * Python `Decimal` values are embedded as `ℚ`: `Decimal.__eq__`/`__hash__`
    compare numeric value (so dict keys collide exactly on numeric equality),
    and every finite decimal is an exact rational.
  * Python `datetime.date` is a calendar triple `(year, month, day)`;
    `date - date` yields a `timedelta` whose comparison is by signed day
    count, embedded as subtraction of the proleptic-Gregorian day ordinal
    (`Date.toOrdinal`, the standard civil-from-days formula; it agrees with
    CPython's `date.toordinal` up to a constant, which cancels in every
    subtraction and comparison).
  * Python `datetime` is a date plus seconds-of-day; `datetime` comparison is
    lexicographic, embedded as comparison of `DateTime.toSeconds`.
  * Python truthiness on the types used by the code: a string is truthy iff
    non-empty, `None` is falsy, a `Decimal` is truthy iff non-zero.
  * CPython's `sorted` / `list.sort` is a stable sort by the key; it is
    embedded as `List.insertionSort` (Mathlib's insertion sort is stable:
    `orderedInsert` places the inserted, earlier element before every
    tied later element).
  * `list.sort(key=k, reverse=True)` is a stable sort by the reversed
    comparison, embedded as `insertionSort` with relation `k b ≤ k a`.
-/

namespace Budget

/-- Proleptic Gregorian calendar date, as in Python's `datetime.date`. -/
structure Date where
  year : Int
  month : Nat
  day : Nat
deriving DecidableEq, Repr

/-- Day ordinal of a civil date (days since 1970-01-01, Howard Hinnant's
`days_from_civil`).  CPython's `date.toordinal` equals this plus 719468 + 1 - 1;
only differences of ordinals are ever used, so the offset is irrelevant. -/
def Date.toOrdinal (d : Date) : Int :=
  let y : Int := if d.month ≤ 2 then d.year - 1 else d.year
  let era : Int := Int.fdiv y 400
  let yoe : Int := y - era * 400
  let mp : Int := Int.emod ((d.month : Int) + 9) 12
  let doy : Int := Int.fdiv (153 * mp + 2) 5 + (d.day : Int) - 1
  let doe : Int := yoe * 365 + Int.fdiv yoe 4 - Int.fdiv yoe 100 + doy
  era * 146097 + doe - 719468

/-- Python `datetime`: a date plus the seconds elapsed within the day.
`datetime` comparison is lexicographic on (date, time of day). -/
structure DateTime where
  date : Date
  secondsOfDay : Nat
deriving DecidableEq, Repr

/-- Linearisation of a `DateTime`; comparing `toSeconds` is the embedding of
Python `datetime` comparison. -/
def DateTime.toSeconds (t : DateTime) : Int :=
  t.date.toOrdinal * 86400 + (t.secondsOfDay : Int)

/-- Python truthiness of an optional string (`None` and `""` are falsy). -/
def pyTruthyStr : Option String → Bool
  | none => false
  | some s => s ≠ ""

/-- Python truthiness of an optional `Decimal` (`None` and `0` are falsy). -/
def pyTruthyDec : Option ℚ → Bool
  | none => false
  | some q => q ≠ 0

/-- `budget.models.paperless.Document`. -/
structure Document where
  id : Int
  date : Date
  total : Option ℚ
  title : String
  category : Option String
deriving DecidableEq, Repr

/-- `Document.__str__`. -/
def Document.str (d : Document) : String :=
  "https://paperless.markis.network/documents/" ++ toString d.id ++ "/"

/-- `budget.models.simplefin.SimpleFinTransaction` (the fields the pipeline
reads and writes). -/
structure SimpleFinTransaction where
  id : String
  amount : ℚ
  description : String
  memo : String
  payee : String
  posted : DateTime
  transacted_at : DateTime
  category : Option String := none
  receipt : Option Document := none
deriving DecidableEq, Repr

/-- `budget.models.simplefin.SimpleFinAccount` (holdings and org metadata,
which no embedded function reads, are omitted). -/
structure SimpleFinAccount where
  available_balance : String
  balance : String
  balance_date : Int
  currency : String
  id : String
  name : String
  transactions : List SimpleFinTransaction
deriving DecidableEq, Repr

/-- `budget.models.google.Category`: the `(category, name)` pair of a lookup
row. -/
structure Category where
  category : Option String
  name : Option String
deriving DecidableEq, Repr

/-! ## `attach_receipts` (src/budget/clients/simplefin.py, lines 109-131)

```python
grouped_receipts: defaultdict[Decimal, list[Document]] = defaultdict(list)
for receipt in receipts:
    if receipt.total:
        grouped_receipts[receipt.total].append(receipt)

transactions: list[SimpleFinTransaction] = []
for account in accounts:
    for transaction in account.transactions:
        documents = grouped_receipts.get(transaction.amount, [])
        document = next(iter(sorted(documents, key=lambda d: transaction.transacted_at.date() - d.date)), None)
        transaction.category = document.category if document else None
        transaction.receipt = document
        transactions.append(transaction)

transactions.sort(key=lambda t: t.transacted_at, reverse=True)
```

The dict groups receipts with truthy total by numeric value, appending in
input order, so `grouped_receipts.get(a, [])` is the in-order sublist of
receipts whose total is truthy and numerically equal to `a`: `bucket`. -/

/-- The candidate list `grouped_receipts.get(amount, [])`. -/
def bucket (receipts : List Document) (amount : ℚ) : List Document :=
  receipts.filter fun r => pyTruthyDec r.total && r.total == some amount

/-- The sort key `transaction.transacted_at.date() - d.date`: a signed
timedelta, embedded as a signed day count. -/
def matchKey (t : SimpleFinTransaction) (d : Document) : Int :=
  t.transacted_at.date.toOrdinal - d.date.toOrdinal

/-- The candidate order relation used by `sorted(documents, key=...)`. -/
def keyLe (t : SimpleFinTransaction) (a b : Document) : Prop :=
  matchKey t a ≤ matchKey t b

instance (t : SimpleFinTransaction) : DecidableRel (keyLe t) :=
  fun a b => Int.decLe (matchKey t a) (matchKey t b)

instance (t : SimpleFinTransaction) : IsTotal Document (keyLe t) :=
  ⟨fun a b => Int.le_total (matchKey t a) (matchKey t b)⟩

instance (t : SimpleFinTransaction) : IsTrans Document (keyLe t) :=
  ⟨fun _ _ _ => Int.le_trans⟩

/-- `next(iter(sorted(documents, key=lambda d: ...)), None)`. -/
def selectReceipt (t : SimpleFinTransaction) (documents : List Document) :
    Option Document :=
  (documents.insertionSort (keyLe t)).head?

/-- The loop body of `attach_receipts` for one transaction. -/
def attachOne (receipts : List Document) (t : SimpleFinTransaction) :
    SimpleFinTransaction :=
  let document := selectReceipt t (bucket receipts t.amount)
  { t with
    category := document.bind Document.category
    receipt := document }

/-- The final-sort relation `key=lambda t: t.transacted_at, reverse=True`. -/
def transLe (a b : SimpleFinTransaction) : Prop :=
  b.transacted_at.toSeconds ≤ a.transacted_at.toSeconds

instance : DecidableRel transLe :=
  fun a b => Int.decLe b.transacted_at.toSeconds a.transacted_at.toSeconds

instance : IsTotal SimpleFinTransaction transLe :=
  ⟨fun a b => (Int.le_total b.transacted_at.toSeconds a.transacted_at.toSeconds)⟩

instance : IsTrans SimpleFinTransaction transLe :=
  ⟨fun _ _ _ h1 h2 => Int.le_trans h2 h1⟩

/-- `SimpleFinClient.attach_receipts`. -/
def attach_receipts (accounts : List SimpleFinAccount)
    (receipts : List Document) : List SimpleFinTransaction :=
  let transactions :=
    (accounts.flatMap SimpleFinAccount.transactions).map (attachOne receipts)
  transactions.insertionSort transLe

/-! ## `categorize_transactions` (src/budget/clients/simplefin.py, lines 96-107)

```python
for transaction in transactions:
    category, name = mapping.get(transaction.payee, (None, None))
    if not transaction.category and category:
        transaction.category = category
    if name:
        transaction.payee = name
```

A Python dict with string keys is embedded as a function
`String → Option Category`; `mapping.get(k, (None, None))` is
`(mapping k).getD ⟨none, none⟩`. -/

/-- The loop body of `categorize_transactions` for one transaction. -/
def categorizeOne (mapping : String → Option Category)
    (t : SimpleFinTransaction) : SimpleFinTransaction :=
  let c := (mapping t.payee).getD ⟨none, none⟩
  let t1 :=
    if pyTruthyStr t.category = false ∧ pyTruthyStr c.category = true then
      { t with category := c.category }
    else t
  if pyTruthyStr c.name = true then
    { t1 with payee := c.name.getD "" }
  else t1

/-- `SimpleFinClient.categorize_transactions` (in-place mutation over the
sequence, embedded as a map). -/
def categorize_transactions (mapping : String → Option Category)
    (transactions : List SimpleFinTransaction) : List SimpleFinTransaction :=
  transactions.map (categorizeOne mapping)

/-! ## Sheet rows (src/budget/clients/google.py) -/

/-- A cell of a `GoogleSheetRow` (`str | float | int`).  The numeric cell
carries the exact value handed to `float(...)`; IEEE-754 rounding inside the
Sheets transport is outside this model. -/
inductive Cell where
  | str (s : String)
  | num (q : ℚ)
deriving DecidableEq, Repr

/-- `strftime("%-m/%-d/%Y")`: month and day without leading zeros. -/
def fmtDate (d : Date) : String :=
  toString d.month ++ "/" ++ toString d.day ++ "/" ++ toString d.year

/-- `convert_to_row` (src/budget/clients/google.py, lines 20-29). -/
def convert_to_row (tran : SimpleFinTransaction) : List Cell :=
  [ Cell.str tran.id,
    Cell.str tran.payee,
    Cell.num tran.amount,
    Cell.str (fmtDate tran.transacted_at.date),
    Cell.str (if pyTruthyStr tran.category then tran.category.getD "" else ""),
    Cell.str (match tran.receipt with
              | some r => r.str
              | none => "") ]

/-- The dedup filter of `insert_records_to_google_sheet`
(src/budget/clients/google.py, lines 60-78):

```python
current_ids = {row[0] for row in values}
records = [convert_to_row(transaction) for transaction in transactions
           if transaction.id not in current_ids]
```

The id set is embedded as a list of strings; Python's `not in` on a set of
strings is (negated) membership. -/
def insert_records (current_ids : List String)
    (transactions : List SimpleFinTransaction) : List (List Cell) :=
  (transactions.filter fun t => t.id ∉ current_ids).map convert_to_row

/-- The ids of the rows the first run emits (column 0 of each emitted row is
the transaction id). -/
def emittedIds (current_ids : List String)
    (transactions : List SimpleFinTransaction) : List String :=
  (transactions.filter fun t => t.id ∉ current_ids).map
    SimpleFinTransaction.id

/-! ## `Args` validation (src/budget/main.py, lines 15-44)

```python
def __post_init__(self) -> None:
    errors: list[str] = []
    if not any((self.simplefin_username, self.simplefin_password, self.simplefin_access_url)):
        errors.append("SimpleFin credentials are required")
    if not any((self.paperless_url, self.paperless_token)):
        errors.append("Paperless credentials are required")
    if not any((self.google_credentials, self.sheets_spreadsheet_id)):
        errors.append("Google credentials are required")
    if errors:
        msg = f"Missing CLI Args \n{'\n'.join(errors)}"
        raise Args.Error(msg)
```

`any(strings)` is true iff some string is non-empty.  Construction raising
`Args.Error` is embedded as `mkArgs` returning `.error msg`.  In `budget.main`
/ `budget.cli`, `Args` is constructed by `get_args()` before any client object
exists, so the error propagates before any network call. -/

/-- The `Args` dataclass fields. -/
structure Args where
  simplefin_username : String
  simplefin_password : String
  simplefin_access_url : String
  paperless_url : String
  paperless_token : String
  google_credentials : String
  sheets_spreadsheet_id : String
  sheets_range_name : String
  mapping_range_name : String
deriving DecidableEq, Repr

/-- The `errors` list accumulated by `Args.__post_init__`. -/
def argsErrors (a : Args) : List String :=
  (if ¬(a.simplefin_username ≠ "" ∨ a.simplefin_password ≠ "" ∨
        a.simplefin_access_url ≠ "") then
    ["SimpleFin credentials are required"] else []) ++
  (if ¬(a.paperless_url ≠ "" ∨ a.paperless_token ≠ "") then
    ["Paperless credentials are required"] else []) ++
  (if ¬(a.google_credentials ≠ "" ∨ a.sheets_spreadsheet_id ≠ "") then
    ["Google credentials are required"] else [])

/-- `Args(...)`: dataclass construction running `__post_init__`, which raises
`Args.Error` iff `errors` is non-empty. -/
def mkArgs (a : Args) : Except String Args :=
  let errors := argsErrors a
  if errors.isEmpty then .ok a
  else .error ("Missing CLI Args \n" ++ String.intercalate "\n" errors)

/-! ## Concrete fixtures

Rationals are written as explicit normalized fractions (numerator,
denominator) so that the kernel can evaluate equality tests on them;
separate lemmas identify them with the usual display form. -/

/-- `Decimal("-42.50")` = -85/2. -/
def q425 : ℚ := ⟨-85, 2, by decide, by decide⟩

/-- `Decimal("-12.34")` = -617/50. -/
def q1234 : ℚ := ⟨-617, 50, by decide, by decide⟩

/-- Receipt dated 2024-03-09 with total -42.50. -/
def d09 : Document := ⟨1, ⟨2024, 3, 9⟩, some q425, "r09", none⟩

/-- Receipt dated 2024-03-15 with total -42.50. -/
def d15 : Document := ⟨2, ⟨2024, 3, 15⟩, some q425, "r15", some "Cat15"⟩

/-- Zero-total receipt (`Decimal("0")` is falsy). -/
def dZero : Document := ⟨3, ⟨2024, 3, 10⟩, some 0, "zero", some "CatZ"⟩

/-- Transaction of amount -42.50 transacted on 2024-03-10. -/
def tX : SimpleFinTransaction :=
  { id := "t", amount := q425, description := "", memo := "", payee := "P",
    posted := ⟨⟨2024, 3, 10⟩, 0⟩, transacted_at := ⟨⟨2024, 3, 10⟩, 0⟩ }

/-- Zero-amount transaction. -/
def tZero : SimpleFinTransaction :=
  { id := "tz", amount := 0, description := "", memo := "", payee := "Z",
    posted := ⟨⟨2024, 3, 10⟩, 0⟩, transacted_at := ⟨⟨2024, 3, 10⟩, 0⟩ }

/-- A one-account fixture holding `tX`. -/
def accX : SimpleFinAccount :=
  ⟨"0", "0", 0, "USD", "acc1", "Checking", [tX]⟩

/-- Lookup table with rule `"ACME CORP" -> (category="Groceries", name="Acme")`
and a decoy rule keyed by the rewritten payee `"Acme"`, which must NOT be
consulted because the lookup is keyed by the original raw payee. -/
def acmeMapping : String → Option Category := fun p =>
  if p = "ACME CORP" then some ⟨some "Groceries", some "Acme"⟩
  else if p = "Acme" then some ⟨some "Other", some "AcmeRewritten"⟩
  else none

/-- Transaction with payee "ACME CORP" and no prior category. -/
def acmeTran : SimpleFinTransaction :=
  { id := "ta", amount := q425, description := "", memo := "",
    payee := "ACME CORP",
    posted := ⟨⟨2024, 3, 10⟩, 0⟩, transacted_at := ⟨⟨2024, 3, 10⟩, 0⟩ }

/-- Transaction with a category already set from a receipt match. -/
def catTran : SimpleFinTransaction :=
  { id := "tc", amount := q425, description := "", memo := "",
    payee := "ACME CORP", category := some "FromReceipt",
    posted := ⟨⟨2024, 3, 10⟩, 0⟩, transacted_at := ⟨⟨2024, 3, 10⟩, 0⟩ }

/-- Candidate transaction with id "t1" (already present in the sheet). -/
def tr1 : SimpleFinTransaction :=
  { id := "t1", amount := q425, description := "", memo := "", payee := "A",
    posted := ⟨⟨2024, 3, 10⟩, 0⟩, transacted_at := ⟨⟨2024, 3, 10⟩, 0⟩ }

/-- Candidate transaction with id "t3" (new). -/
def tr3 : SimpleFinTransaction :=
  { id := "t3", amount := q425, description := "", memo := "", payee := "B",
    posted := ⟨⟨2024, 3, 11⟩, 0⟩, transacted_at := ⟨⟨2024, 3, 11⟩, 0⟩ }

/-- Transaction with amount -12.34 transacted on 2024-03-05, no category, no
receipt. -/
def rowTran : SimpleFinTransaction :=
  { id := "t9", amount := q1234, description := "", memo := "", payee := "Shop",
    posted := ⟨⟨2024, 3, 5⟩, 3600⟩, transacted_at := ⟨⟨2024, 3, 5⟩, 3600⟩ }

/-- Transaction with a category and a receipt attached. -/
def rowTranFull : SimpleFinTransaction :=
  { id := "t10", amount := q425, description := "", memo := "", payee := "Shop2",
    posted := ⟨⟨2024, 12, 25⟩, 0⟩, transacted_at := ⟨⟨2024, 12, 25⟩, 0⟩,
    category := some "Cat15", receipt := some d15 }

/-- Args with the whole SimpleFin group empty. -/
def argsMissingSimpleFin : Args :=
  ⟨"", "", "", "http://paperless", "tok", "creds", "sheetid", "transactions",
    "lookup"⟩

/-- Args with every group represented. -/
def argsComplete : Args :=
  ⟨"user", "", "", "http://paperless", "", "creds", "", "transactions",
    "lookup"⟩

/-! ## Helper lemmas -/

/-- The head of a stable sort is a minimum of the input list: it belongs to
the list and relates to every element. -/
theorem head_insertionSort_le {α : Type} (r : α → α → Prop) [DecidableRel r]
    [IsTotal α r] [IsTrans α r] (l : List α) (a : α)
    (h : (l.insertionSort r).head? = some a) :
    a ∈ l ∧ ∀ b ∈ l, r a b := by
  have hs : List.Sorted r (l.insertionSort r) := List.sorted_insertionSort r l
  have hp : List.Perm (l.insertionSort r) l := List.perm_insertionSort r l
  cases hsort : l.insertionSort r with
  | nil => rw [hsort] at h; exact absurd h (by simp)
  | cons x tl =>
    rw [hsort] at h hs hp
    have hax : x = a := by simpa using h
    subst hax
    refine ⟨hp.subset (List.mem_cons_self x tl), ?_⟩
    intro b hb
    have hb' : b ∈ x :: tl := hp.mem_iff.mpr hb
    rcases List.mem_cons.mp hb' with rfl | hbtl
    · rcases IsTotal.total (r := r) b b with h' | h' <;> exact h'
    · exact (List.pairwise_cons.mp hs).1 b hbtl

/-- Every element of `attach_receipts` output is `attachOne` of an input
transaction. -/
theorem mem_attach_receipts {accounts : List SimpleFinAccount}
    {receipts : List Document} {u : SimpleFinTransaction} :
    u ∈ attach_receipts accounts receipts ↔
      ∃ t ∈ accounts.flatMap SimpleFinAccount.transactions,
        u = attachOne receipts t := by
  unfold attach_receipts
  rw [List.mem_insertionSort]
  simp only [List.mem_map]
  constructor
  · rintro ⟨t, ht, rfl⟩; exact ⟨t, ht, rfl⟩
  · rintro ⟨t, ht, rfl⟩; exact ⟨t, ht, rfl⟩

/-- `q425` is the value of `Decimal("-42.50")`. -/
theorem q425_eq : q425 = -85 / 2 := by
  rw [q425, Rat.mk_eq_divInt]; norm_num [Rat.divInt_eq_div]

/-! ## Claims -/

/-- C1, counterexample.  The claim says the matcher minimizes the ABSOLUTE
day distance, so that for a transaction of amount -42.50 transacted on
2024-03-10 with candidate receipts dated 2024-03-09 (distance 1) and
2024-03-15 (distance 5), the 2024-03-09 receipt would be selected.  On the
code, the sort key `transaction.transacted_at.date() - d.date` is a SIGNED
timedelta, so the 2024-03-15 receipt (key -5 < +1) is selected instead,
although the 2024-03-09 receipt is a candidate in the same amount bucket. -/
theorem claim1_counterexample :
    (attach_receipts [accX] [d09, d15]).map SimpleFinTransaction.receipt
      = [some d15] ∧
    d09 ∈ bucket [d09, d15] tX.amount ∧
    d09.date = ⟨2024, 3, 9⟩ ∧ d15.date = ⟨2024, 3, 15⟩ ∧
    tX.transacted_at.date = ⟨2024, 3, 10⟩ ∧
    tX.amount = q425 ∧ d09.total = some q425 ∧ d15.total = some q425 ∧
    d15 ≠ d09 := by
  refine ⟨by decide, by decide, rfl, rfl, rfl, rfl, rfl, rfl, by decide⟩

/-- C1, amended: for every transaction whose amount has a non-empty receipt
bucket, `attach_receipts` selects the candidate receipt that minimizes the
SIGNED day difference `transaction.transacted_at.date() - receipt.date`
(so the latest-dated candidate wins, and a receipt dated after the
transaction beats one dated exactly on the transaction date); in the example
of amount -42.50 on 2024-03-10 with candidates dated 2024-03-09 and
2024-03-15, the 2024-03-15 receipt is selected. -/
theorem claim1_amended_signed_min :
    ∀ (receipts : List Document) (t : SimpleFinTransaction) (d : Document),
      (attachOne receipts t).receipt = some d →
        d ∈ bucket receipts t.amount ∧
        ∀ d' ∈ bucket receipts t.amount, matchKey t d ≤ matchKey t d' := by
  intro receipts t d h
  have h' : ((bucket receipts t.amount).insertionSort (keyLe t)).head? = some d := h
  have hm := head_insertionSort_le (keyLe t) (bucket receipts t.amount) d h'
  exact ⟨hm.1, fun d' hd' => hm.2 d' hd'⟩

/-- Witness for C1 (amended): at the concrete example the selected receipt
is `d15`, it lies in the bucket, and its signed key is minimal. -/
theorem claim1_amended_signed_min_witness :
    d15 ∈ bucket [d09, d15] tX.amount ∧
    ∀ d' ∈ bucket [d09, d15] tX.amount, matchKey tX d15 ≤ matchKey tX d' :=
  claim1_amended_signed_min [d09, d15] tX d15 (by decide)

/-- C2: every transaction in the output of `attach_receipts` has its receipt
field either `none` or equal to a supplied receipt whose total equals the
transaction's amount; consequently a receipt whose total is `None` is never
selected. -/
theorem claim2_receipt_from_supplied_bucket :
    ∀ (accounts : List SimpleFinAccount) (receipts : List Document),
      ∀ u ∈ attach_receipts accounts receipts,
        (u.receipt = none ∨
          ∃ r ∈ receipts, u.receipt = some r ∧ r.total = some u.amount) ∧
        ∀ r : Document, r.total = none → u.receipt ≠ some r := by
  intro accounts receipts u hu
  obtain ⟨t, -, rfl⟩ := mem_attach_receipts.mp hu
  have key : ∀ d : Document,
      (attachOne receipts t).receipt = some d →
        d ∈ receipts ∧ d.total = some t.amount := by
    intro d hd
    have h' : ((bucket receipts t.amount).insertionSort (keyLe t)).head?
        = some d := hd
    have hmem := (head_insertionSort_le (keyLe t) _ d h').1
    have hf := List.mem_filter.mp hmem
    refine ⟨hf.1, ?_⟩
    have hb := hf.2
    rw [Bool.and_eq_true] at hb
    exact eq_of_beq hb.2
  constructor
  · cases hr : (attachOne receipts t).receipt with
    | none => exact Or.inl rfl
    | some d =>
      have := key d hr
      exact Or.inr ⟨d, this.1, rfl, this.2⟩
  · intro r hrnone hcontra
    have := (key r hcontra).2
    rw [hrnone] at this
    exact Option.noConfusion this

/-- Witness for C2 at the concrete fixture: the matched transaction's receipt
is a supplied receipt of equal total. -/
theorem claim2_receipt_from_supplied_bucket_witness :
    ((attachOne [d09, d15] tX).receipt = none ∨
      ∃ r ∈ [d09, d15], (attachOne [d09, d15] tX).receipt = some r ∧
        r.total = some (attachOne [d09, d15] tX).amount) ∧
    ∀ r : Document, r.total = none →
      (attachOne [d09, d15] tX).receipt ≠ some r :=
  claim2_receipt_from_supplied_bucket [accX] [d09, d15]
    (attachOne [d09, d15] tX) (by decide)

/-- C5: the transaction list returned by `attach_receipts` is sorted by
`transacted_at` in non-increasing order (most recent first). -/
theorem claim5_output_sorted_descending :
    ∀ (accounts : List SimpleFinAccount) (receipts : List Document),
      (attach_receipts accounts receipts).Pairwise
        (fun a b => b.transacted_at.toSeconds ≤ a.transacted_at.toSeconds) := by
  intro accounts receipts
  exact List.sorted_insertionSort transLe
    ((accounts.flatMap SimpleFinAccount.transactions).map (attachOne receipts))

/-- The category field after `categorize_transactions`' loop body: overwritten
with the lookup override exactly when the current category is falsy and the
override is truthy. -/
theorem categorizeOne_category (mapping : String → Option Category)
    (t : SimpleFinTransaction) :
    (categorizeOne mapping t).category =
      if pyTruthyStr t.category = false ∧
          pyTruthyStr ((mapping t.payee).getD ⟨none, none⟩).category = true then
        ((mapping t.payee).getD ⟨none, none⟩).category
      else t.category := by
  unfold categorizeOne
  by_cases h1 : pyTruthyStr t.category = false ∧
      pyTruthyStr ((mapping t.payee).getD ⟨none, none⟩).category = true <;>
    by_cases h2 : pyTruthyStr ((mapping t.payee).getD ⟨none, none⟩).name = true <;>
    simp [h1, h2]

/-- C3: `categorize_transactions` sets the category to the lookup override
only if the transaction currently has no (truthy) category and a rule exists
for its exact payee with a truthy override; a category already set (e.g. from
the receipt match) is never overwritten. -/
theorem claim3_category_fallback_only :
    ∀ (mapping : String → Option Category) (t : SimpleFinTransaction),
      (pyTruthyStr t.category = true →
        (categorizeOne mapping t).category = t.category) ∧
      ((categorizeOne mapping t).category ≠ t.category →
        pyTruthyStr t.category = false ∧
        ∃ c, mapping t.payee = some c ∧ pyTruthyStr c.category = true ∧
          (categorizeOne mapping t).category = c.category) := by
  intro mapping t
  have hc := categorizeOne_category mapping t
  constructor
  · intro ht
    rw [hc, if_neg]
    rintro ⟨h1, -⟩
    rw [ht] at h1
    exact Bool.noConfusion h1
  · intro hne
    by_cases hcond : pyTruthyStr t.category = false ∧
        pyTruthyStr ((mapping t.payee).getD ⟨none, none⟩).category = true
    · refine ⟨hcond.1, ?_⟩
      cases hm : mapping t.payee with
      | none =>
        exfalso
        have h2 := hcond.2
        rw [hm] at h2
        exact Bool.noConfusion h2
      | some c =>
        refine ⟨c, rfl, ?_, ?_⟩
        · have h2 := hcond.2
          rwa [hm] at h2
        · rw [hc, if_pos hcond, hm]
          rfl
    · exfalso
      rw [hc, if_neg hcond] at hne
      exact hne rfl

/-- Witness for C3: a transaction whose category was already set from a
receipt match keeps it through categorization, although a lookup rule with a
category override exists for its payee. -/
theorem claim3_category_fallback_only_witness :
    (categorizeOne acmeMapping catTran).category = catTran.category :=
  (claim3_category_fallback_only acmeMapping catTran).1 (by decide)

/-- C4: whenever the lookup rule for the (original, raw) payee provides a
truthy display name, the loop body overwrites the payee with it,
unconditionally; in the concrete ACME example (whose lookup table also
carries a decoy rule keyed by the rewritten payee "Acme"), the transaction
ends with category "Groceries" and payee "Acme" — the decoy's category
"Other" and name "AcmeRewritten" are never consulted, because the category
decision and the lookup happen before the rewrite, keyed by "ACME CORP". -/
theorem claim4_payee_rewrite :
    (∀ (mapping : String → Option Category) (t : SimpleFinTransaction)
        (c : Category),
      mapping t.payee = some c → pyTruthyStr c.name = true →
        (categorizeOne mapping t).payee = c.name.getD "") ∧
    (categorizeOne acmeMapping acmeTran).category = some "Groceries" ∧
    (categorizeOne acmeMapping acmeTran).payee = "Acme" := by
  refine ⟨?_, by decide, by decide⟩
  intro mapping t c hm hname
  unfold categorizeOne
  rw [hm]
  simp [hname]

/-- Witness for C4: at the ACME fixture the payee is rewritten to the rule's
display name. -/
theorem claim4_payee_rewrite_witness :
    (categorizeOne acmeMapping acmeTran).payee = "Acme" :=
  claim4_payee_rewrite.1 acmeMapping acmeTran
    ⟨some "Groceries", some "Acme"⟩ (by decide) (by decide)

/-- C10: a receipt whose total is exactly zero (present but falsy) is
excluded from every amount bucket, and a transaction with amount zero never
has a receipt attached. -/
theorem claim10_zero_total_excluded :
    ∀ (receipts : List Document) (t : SimpleFinTransaction) (r : Document)
      (a : ℚ),
      (r.total = some 0 → r ∉ bucket receipts a) ∧
      (t.amount = 0 → (attachOne receipts t).receipt = none) := by
  intro receipts t r a
  constructor
  · intro hr hmem
    have hf := (List.mem_filter.mp hmem).2
    rw [Bool.and_eq_true] at hf
    have h1 := hf.1
    rw [hr] at h1
    simp [pyTruthyDec] at h1
  · intro ha
    have hb : bucket receipts 0 = [] := by
      apply List.filter_eq_nil_iff.mpr
      intro d hd
      cases ht : d.total with
      | none => simp [pyTruthyDec, ht]
      | some q =>
        by_cases hq : q = 0 <;> simp [pyTruthyDec, ht, hq]
    show selectReceipt t (bucket receipts t.amount) = none
    rw [ha, hb]
    rfl

/-- Witness for C10: the zero-total receipt is not in the -42.50 bucket, and
the zero-amount transaction gets no receipt even though a zero-total receipt
is supplied. -/
theorem claim10_zero_total_excluded_witness :
    dZero ∉ bucket [dZero] q425 ∧
    (attachOne [dZero] tZero).receipt = none :=
  ⟨(claim10_zero_total_excluded [dZero] tZero dZero q425).1 rfl,
   (claim10_zero_total_excluded [dZero] tZero dZero q425).2 rfl⟩

/-- C6: the sheet writer emits a row exactly for those transactions whose id
is not already present in the existing ids; with existing ids t1, t2 and
candidates with ids t1, t3, only the t3 row is emitted. -/
theorem claim6_dedup_filter :
    ∀ (current_ids : List String)
      (transactions : List SimpleFinTransaction) (row : List Cell),
      (row ∈ insert_records current_ids transactions ↔
        ∃ t ∈ transactions, t.id ∉ current_ids ∧ row = convert_to_row t) ∧
      insert_records ["t1", "t2"] [tr1, tr3] = [convert_to_row tr3] := by
  intro ids ts row
  refine ⟨?_, by decide⟩
  unfold insert_records
  rw [List.mem_map]
  constructor
  · rintro ⟨t, htf, rfl⟩
    have h := List.mem_filter.mp htf
    exact ⟨t, h.1, by simpa using h.2, rfl⟩
  · rintro ⟨t, ht, hnot, rfl⟩
    exact ⟨t, List.mem_filter.mpr ⟨ht, by simpa using hnot⟩, rfl⟩

/-- Witness for C6: the t3 row is emitted at the concrete fixture. -/
theorem claim6_dedup_filter_witness :
    convert_to_row tr3 ∈ insert_records ["t1", "t2"] [tr1, tr3] :=
  ((claim6_dedup_filter ["t1", "t2"] [tr1, tr3] (convert_to_row tr3)).1).mpr
    ⟨tr3, by decide, by decide, rfl⟩

/-- C7: re-running the dedup filter with the existing ids enlarged by the
ids of the rows the first run emitted emits zero new rows for the same
transaction list (idempotence of a repeated run on unchanged data). -/
theorem claim7_rerun_idempotent :
    ∀ (existing_ids : List String)
      (transactions : List SimpleFinTransaction),
      insert_records (existing_ids ++ emittedIds existing_ids transactions)
        transactions = [] := by
  intro E ts
  unfold insert_records
  rw [List.map_eq_nil_iff, List.filter_eq_nil_iff]
  intro t ht
  have hall : t.id ∈ E ++ emittedIds E ts := by
    rw [List.mem_append]
    by_cases hE : t.id ∈ E
    · exact Or.inl hE
    · refine Or.inr ?_
      unfold emittedIds
      rw [List.mem_map]
      exact ⟨t, List.mem_filter.mpr ⟨ht, by simpa using hE⟩, rfl⟩
  simp [hall]

/-- C8: constructing `Args` raises `Args.Error` exactly when some required
credential group is absent (all of its fields empty); when no group is
missing, construction succeeds and returns the `Args` value.  In
`budget.main`/`budget.cli` the construction happens before any client object
(hence any network connection) is created. -/
theorem claim8_args_validation :
    ∀ a : Args,
      ((∃ e, mkArgs a = Except.error e) ↔
        (a.simplefin_username = "" ∧ a.simplefin_password = "" ∧
          a.simplefin_access_url = "") ∨
        (a.paperless_url = "" ∧ a.paperless_token = "") ∨
        (a.google_credentials = "" ∧ a.sheets_spreadsheet_id = "")) ∧
      ((mkArgs a = Except.ok a) ↔
        ¬((a.simplefin_username = "" ∧ a.simplefin_password = "" ∧
            a.simplefin_access_url = "") ∨
          (a.paperless_url = "" ∧ a.paperless_token = "") ∨
          (a.google_credentials = "" ∧ a.sheets_spreadsheet_id = ""))) := by
  intro a
  have herr : argsErrors a = [] ↔
      ¬((a.simplefin_username = "" ∧ a.simplefin_password = "" ∧
          a.simplefin_access_url = "") ∨
        (a.paperless_url = "" ∧ a.paperless_token = "") ∨
        (a.google_credentials = "" ∧ a.sheets_spreadsheet_id = "")) := by
    by_cases h1 : a.simplefin_username ≠ "" ∨ a.simplefin_password ≠ "" ∨
        a.simplefin_access_url ≠ "" <;>
      by_cases h2 : a.paperless_url ≠ "" ∨ a.paperless_token ≠ "" <;>
      by_cases h3 : a.google_credentials ≠ "" ∨
        a.sheets_spreadsheet_id ≠ "" <;>
      simp [argsErrors, h1, h2, h3] <;> tauto
  constructor
  · constructor
    · rintro ⟨e, he⟩
      by_contra hnd
      have hnil : argsErrors a = [] := herr.mpr hnd
      unfold mkArgs at he
      rw [hnil] at he
      exact Except.noConfusion he
    · intro hd
      have hne : argsErrors a ≠ [] := fun h => (herr.mp h) hd
      unfold mkArgs
      rw [if_neg (by simpa [List.isEmpty_iff] using hne)]
      exact ⟨_, rfl⟩
  · constructor
    · intro hok
      apply herr.mp
      by_contra hne
      unfold mkArgs at hok
      rw [if_neg (by simpa [List.isEmpty_iff] using hne)] at hok
      exact Except.noConfusion hok
    · intro hnd
      have hnil : argsErrors a = [] := herr.mpr hnd
      unfold mkArgs
      rw [if_pos (by simpa [List.isEmpty_iff] using hnil)]

/-- Witness for C8: the fixture missing the whole SimpleFin group fails
construction; the fixture with one member of each group present succeeds. -/
theorem claim8_args_validation_witness :
    (∃ e, mkArgs argsMissingSimpleFin = Except.error e) ∧
    mkArgs argsComplete = Except.ok argsComplete :=
  ⟨(claim8_args_validation argsMissingSimpleFin).1.mpr
      (Or.inl ⟨rfl, rfl, rfl⟩),
   (claim8_args_validation argsComplete).2.mpr (by decide)⟩

/-- C9: row conversion produces exactly the six cells id, payee, amount as
the numeric display value, `transacted_at` formatted month/day/year without
leading zeros, category-or-empty, receipt-reference-or-empty; a transaction
of amount `Decimal("-12.34")` yields the numeric cell value -12.34, the
decimal-to-numeric conversion happening only at this serialization boundary
(the `Cell.num` payload is exactly the transaction's amount). -/
theorem claim9_row_shape :
    ∀ t : SimpleFinTransaction,
      ((convert_to_row t).length = 6 ∧
        convert_to_row t =
          [Cell.str t.id, Cell.str t.payee, Cell.num t.amount,
           Cell.str (fmtDate t.transacted_at.date),
           Cell.str (if pyTruthyStr t.category then t.category.getD "" else ""),
           Cell.str (match t.receipt with | some r => r.str | none => "")]) ∧
      convert_to_row rowTran =
        [Cell.str "t9", Cell.str "Shop", Cell.num q1234, Cell.str "3/5/2024",
         Cell.str "", Cell.str ""] ∧
      convert_to_row rowTranFull =
        [Cell.str "t10", Cell.str "Shop2", Cell.num q425,
         Cell.str "12/25/2024", Cell.str "Cat15",
         Cell.str "https://paperless.markis.network/documents/2/"] ∧
      q1234 = -1234 / 100 := by
  intro t
  refine ⟨⟨rfl, rfl⟩, by decide, by decide, ?_⟩
  rw [q1234, Rat.mk_eq_divInt]
  norm_num [Rat.divInt_eq_div]

end Budget
